import Mathlib

/-
Verification development for the monitorium metrics reconciliation and
live-state engine.

The Rust sources are embedded shallowly:
  * float fields (f64) are modelled as rationals (ℚ);
  * HashMap<String, T> is modelled as an association list List (String × T)
    with distinct keys (the HashMap guarantee);
  * the pseudo-random draws of rand::Rng::gen_range(lo..hi) are isolated as
    explicit delta parameters constrained to the half-open interval [lo, hi);
  * operations that can panic in Rust (integer division / remainder by zero)
    return Option, with none standing for a panic;
  * the Prometheus adapter result consumed by App::update_prometheus_metrics
    is passed in as an explicit Except value together with the candidate maps
    the client would expose via get_nodes / get_services.
-/

namespace Monitorium

/-- Mirror of struct NodeMetrics (mock_data.rs): identity, live metrics and
static hardware descriptor fields of one node. -/
structure NodeMetrics where
  name : String
  ip_address : String
  status : String
  cpu_usage : ℚ
  memory_usage : ℚ
  memory_total : Nat
  gpu_usage : ℚ
  gpu_memory : ℚ
  gpu_memory_total : Nat
  network_rx : ℚ
  network_tx : ℚ
  disk_usage : ℚ
  uptime : Nat
  temperature : ℚ
  cpu_model : String
  cpu_cores : Nat
  cpu_threads : Nat
  memory_total_gb : ℚ
  gpu_model : String
  disk_total_gb : ℚ
  deriving DecidableEq

/-- Mirror of struct ServiceMetrics (mock_data.rs): identity, live metrics,
replica counts and health-probe fields of one service. -/
structure ServiceMetrics where
  name : String
  namespace_ : String
  status : String
  cpu_usage : ℚ
  memory_usage : ℚ
  requests_per_sec : ℚ
  response_time : ℚ
  error_rate : ℚ
  uptime : Nat
  replicas : Nat
  ready_replicas : Nat
  health_status : String
  health_endpoint : String
  last_health_check : Nat
  health_response_time : ℚ
  consecutive_failures : Nat
  deriving DecidableEq

/-- Mirror of enum ConnectionStatus (app.rs). -/
inductive ConnectionStatus where
  | Connected
  | Disconnected (reason : String)
  | Connecting
  deriving DecidableEq

/-- Mirror of enum ActivePanel (app.rs). -/
inductive ActivePanel where
  | Nodes
  | Services
  deriving DecidableEq

/-- Mirror of enum CurrentTab (app.rs). -/
inductive CurrentTab where
  | Overview
  | Nodes
  | Services
  | Compare
  deriving DecidableEq

/-- Mirror of struct FilterState (app.rs). -/
structure FilterState where
  enabled : Bool
  selected_node : Option String
  selected_namespace : Option String
  selected_service : Option String
  deriving DecidableEq

/-- The configuration fields the state engine reads (config.rs):
GeneralConfig.history_retention and UiConfig.refresh_rate_ms. -/
structure Config where
  history_retention : Nat
  refresh_rate_ms : Nat
  deriving DecidableEq

/-- The fields of struct App (app.rs) that the state engine touches. -/
structure App where
  current_tab : CurrentTab
  active_panel : ActivePanel
  selected_node_index : Nat
  selected_service_index : Nat
  filter : FilterState
  tick_count : Nat
  config : Config
  connection_status : ConnectionStatus
  nodes : List (String × NodeMetrics)
  services : List (String × ServiceMetrics)
  node_history : List (String × List ℚ)
  service_history : List (String × List ℚ)
  deriving DecidableEq

/-- Association-list lookup, the embedding of HashMap::get / get_mut key
resolution. -/
def alookup {α : Type} (k : String) : List (String × α) → Option α
  | [] => none
  | p :: rest => if p.1 = k then some p.2 else alookup k rest

/-- Key list of an association list (the HashMap key set, in the order the
embedding carries the entries). -/
def keysOf {α : Type} (l : List (String × α)) : List String :=
  l.map Prod.fst

/-- Rust f64::clamp as used in update_mock_metrics: below the low bound gives
the low bound, above the high bound gives the high bound, otherwise the value
itself. -/
def rclamp (x lo hi : ℚ) : ℚ :=
  if x < lo then lo else if hi < x then hi else x

/-- The success-path copy of app.rs lines 176-183: only the live node metrics
are taken from the candidate record; identity and hardware fields keep the
existing record's values. -/
def mergeNode (existing candidate : NodeMetrics) : NodeMetrics :=
  { existing with
    cpu_usage := candidate.cpu_usage
    memory_usage := candidate.memory_usage
    gpu_usage := candidate.gpu_usage
    gpu_memory := candidate.gpu_memory
    network_rx := candidate.network_rx
    network_tx := candidate.network_tx
    disk_usage := candidate.disk_usage
    temperature := candidate.temperature }

/-- The success-path copy of app.rs lines 191-197: live service metrics,
status and ready_replicas are taken from the candidate record. -/
def mergeService (existing candidate : ServiceMetrics) : ServiceMetrics :=
  { existing with
    cpu_usage := candidate.cpu_usage
    memory_usage := candidate.memory_usage
    requests_per_sec := candidate.requests_per_sec
    response_time := candidate.response_time
    error_rate := candidate.error_rate
    status := candidate.status
    ready_replicas := candidate.ready_replicas }

/-- The per-key body of the node loop of app.rs lines 173-185: a node whose
key the candidate map also holds gets the candidate's live metrics merged in;
any other node is left alone. -/
def fetchedNode (cand : List (String × NodeMetrics)) (k : String) (v : NodeMetrics) :
    NodeMetrics :=
  match alookup k cand with
  | some c => mergeNode v c
  | none => v

/-- app.rs lines 173-185: for each existing node, if the candidate map has the
same key, merge the candidate's live metrics in; keys absent from the current
map are never inserted (the loop only ever calls get_mut on existing keys). -/
def updateNodes (cur cand : List (String × NodeMetrics)) : List (String × NodeMetrics) :=
  cur.map fun p => (p.1, fetchedNode cand p.1 p.2)

/-- The per-key body of the service loop of app.rs lines 187-199. -/
def fetchedService (cand : List (String × ServiceMetrics)) (k : String)
    (v : ServiceMetrics) : ServiceMetrics :=
  match alookup k cand with
  | some c => mergeService v c
  | none => v

/-- app.rs lines 187-199: the service analogue of updateNodes. -/
def updateServices (cur cand : List (String × ServiceMetrics)) :
    List (String × ServiceMetrics) :=
  cur.map fun p => (p.1, fetchedService cand p.1 p.2)

/-- One node's random draws in update_mock_metrics, isolated as explicit
parameters (one per gen_range call). -/
structure NodeDrift where
  d_cpu : ℚ
  d_mem : ℚ
  d_gpu : ℚ
  d_gpu_mem : ℚ
  d_rx : ℚ
  d_tx : ℚ
  d_disk : ℚ

/-- The half-open intervals of the gen_range calls on the node drift path
(app.rs lines 222-228). -/
def NodeDrift.InRange (d : NodeDrift) : Prop :=
  (-0.5 ≤ d.d_cpu ∧ d.d_cpu < 0.5) ∧
  (-0.3 ≤ d.d_mem ∧ d.d_mem < 0.3) ∧
  (-1 ≤ d.d_gpu ∧ d.d_gpu < 1) ∧
  (-0.2 ≤ d.d_gpu_mem ∧ d.d_gpu_mem < 0.2) ∧
  (-10 ≤ d.d_rx ∧ d.d_rx < 20) ∧
  (-8 ≤ d.d_tx ∧ d.d_tx < 15) ∧
  (-0.1 ≤ d.d_disk ∧ d.d_disk < 0.1)

/-- One service's random draws in update_mock_metrics. -/
structure ServiceDrift where
  d_cpu : ℚ
  d_mem : ℚ
  d_rps : ℚ
  d_rt : ℚ
  d_err : ℚ

/-- The half-open intervals of the gen_range calls on the service drift path
(app.rs lines 233-237). -/
def ServiceDrift.InRange (d : ServiceDrift) : Prop :=
  (-0.2 ≤ d.d_cpu ∧ d.d_cpu < 0.3) ∧
  (-0.1 ≤ d.d_mem ∧ d.d_mem < 0.2) ∧
  (-1 ≤ d.d_rps ∧ d.d_rps < 2) ∧
  (-5 ≤ d.d_rt ∧ d.d_rt < 10) ∧
  (-0.05 ≤ d.d_err ∧ d.d_err < 0.1)

/-- The per-node body of update_mock_metrics (app.rs lines 220-229). -/
def driftNode (n : NodeMetrics) (d : NodeDrift) : NodeMetrics :=
  { n with
    cpu_usage := rclamp (n.cpu_usage + d.d_cpu) 10 95
    memory_usage := rclamp (n.memory_usage + d.d_mem) 20 85
    gpu_usage := rclamp (n.gpu_usage + d.d_gpu) 0 100
    gpu_memory := rclamp (n.gpu_memory + d.d_gpu_mem) 30 70
    network_rx := rclamp (n.network_rx + d.d_rx) 0 1000
    network_tx := rclamp (n.network_tx + d.d_tx) 0 800
    disk_usage := rclamp (n.disk_usage + d.d_disk) 40 90 }

/-- The per-service body of update_mock_metrics (app.rs lines 232-238). -/
def driftService (s : ServiceMetrics) (d : ServiceDrift) : ServiceMetrics :=
  { s with
    cpu_usage := rclamp (s.cpu_usage + d.d_cpu) 0.5 80
    memory_usage := rclamp (s.memory_usage + d.d_mem) 10 75
    requests_per_sec := rclamp (s.requests_per_sec + d.d_rps) 0 200
    response_time := rclamp (s.response_time + d.d_rt) 50 500
    error_rate := rclamp (s.error_rate + d.d_err) 0 5 }

/-- App::update_mock_metrics: every node and service record's live metrics
take one bounded random-walk step; the drift draws are supplied per key. -/
def update_mock_metrics (app : App) (nd : String → NodeDrift)
    (sd : String → ServiceDrift) : App :=
  { app with
    nodes := app.nodes.map fun p => (p.1, driftNode p.2 (nd p.1))
    services := app.services.map fun p => (p.1, driftService p.2 (sd p.1)) }

/-- What a successful PrometheusClient::update_metrics call exposes to the
App: the returned bool and the maps behind get_nodes / get_services. -/
structure FetchOk where
  updated : Bool
  nodes : List (String × NodeMetrics)
  services : List (String × ServiceMetrics)

/-- App::update_prometheus_metrics (app.rs lines 163-212): on Ok(true) merge
candidate live metrics into existing records and set Connected; on Ok(false)
do nothing; on Err set Disconnected(reason) and fall back to the mock drift. -/
def update_prometheus_metrics (app : App) (res : Except String FetchOk)
    (nd : String → NodeDrift) (sd : String → ServiceDrift) : App :=
  match res with
  | Except.ok r =>
    if r.updated then
      { app with
        nodes := updateNodes app.nodes r.nodes
        services := updateServices app.services r.services
        connection_status := ConnectionStatus.Connected }
    else app
  | Except.error e =>
    update_mock_metrics { app with connection_status := ConnectionStatus.Disconnected e }
      nd sd

/-- One history buffer update (app.rs lines 252-255): push the sample at the
end; if the length then exceeds max_history, remove the element at index 0
(the oldest). -/
def pushSample (h : List ℚ) (x : ℚ) (max_history : Nat) : List ℚ :=
  if max_history < (h ++ [x]).length then (h ++ [x]).eraseIdx 0 else h ++ [x]

/-- The entry(name).or_insert_with(Vec::new) pattern on an association list:
update the buffer under key k if present, otherwise insert a fresh one. -/
def upsertHist (h : List (String × List ℚ)) (k : String) (x : ℚ) (m : Nat) :
    List (String × List ℚ) :=
  match h with
  | [] => [(k, pushSample [] x m)]
  | p :: rest =>
    if p.1 = k then (p.1, pushSample p.2 x m) :: rest
    else p :: upsertHist rest k x m

/-- Fold of upsertHist over the entities sampled in one update_history pass. -/
def updateHistories (h : List (String × List ℚ)) (ents : List (String × ℚ)) (m : Nat) :
    List (String × List ℚ) :=
  ents.foldl (fun acc e => upsertHist acc e.1 e.2 m) h

/-- App::update_history (app.rs lines 241-266). update_interval is the u64
quotient 1000 / refresh_rate_ms; none models the Rust panics: division by
zero when refresh_rate_ms = 0, and remainder by zero when the quotient is 0
(refresh_rate_ms > 1000). On a non-sampling tick the state is returned
unchanged; on a sampling tick every node's and service's cpu_usage is pushed
into its buffer with retention history_retention. -/
def update_history (app : App) : Option App :=
  if app.config.refresh_rate_ms = 0 then
    none
  else
    let update_interval := 1000 / app.config.refresh_rate_ms
    if update_interval = 0 then
      none
    else if app.tick_count % update_interval ≠ 0 then
      some app
    else
      some { app with
        node_history := updateHistories app.node_history
          (app.nodes.map fun p => (p.1, p.2.cpu_usage)) app.config.history_retention
        service_history := updateHistories app.service_history
          (app.services.map fun p => (p.1, p.2.cpu_usage)) app.config.history_retention }

/-- App::on_tick (app.rs lines 158-161): increment tick_count, then
update_history. -/
def on_tick (app : App) : Option App :=
  update_history { app with tick_count := app.tick_count + 1 }

/-- App::next_node (app.rs lines 269-274). -/
def next_node (app : App) : App :=
  let node_count := app.nodes.length
  if 0 < node_count then
    { app with selected_node_index := (app.selected_node_index + 1) % node_count }
  else app

/-- App::previous_node (app.rs lines 276-285). -/
def previous_node (app : App) : App :=
  let node_count := app.nodes.length
  if 0 < node_count then
    { app with selected_node_index :=
        if app.selected_node_index = 0 then node_count - 1
        else app.selected_node_index - 1 }
  else app

/-- App::next_service (app.rs lines 288-293). -/
def next_service (app : App) : App :=
  let service_count := app.services.length
  if 0 < service_count then
    { app with selected_service_index := (app.selected_service_index + 1) % service_count }
  else app

/-- App::previous_service (app.rs lines 295-304). -/
def previous_service (app : App) : App :=
  let service_count := app.services.length
  if 0 < service_count then
    { app with selected_service_index :=
        if app.selected_service_index = 0 then service_count - 1
        else app.selected_service_index - 1 }
  else app

/-- App::navigate_up (app.rs lines 315-320). -/
def navigate_up (app : App) : App :=
  match app.active_panel with
  | ActivePanel.Nodes => previous_node app
  | ActivePanel.Services => previous_service app

/-- App::navigate_down (app.rs lines 322-327). -/
def navigate_down (app : App) : App :=
  match app.active_panel with
  | ActivePanel.Nodes => next_node app
  | ActivePanel.Services => next_service app

/-- Stable insertion used to embed the sort_by name comparison of
render_service_health_info. -/
def insertByName (p : String × ServiceMetrics) :
    List (String × ServiceMetrics) → List (String × ServiceMetrics)
  | [] => [p]
  | q :: rest => if p.1 ≤ q.1 then p :: q :: rest else q :: insertByName p rest

/-- The sort_by(name cmp) of render_service_health_info, as insertion sort. -/
def sortByName (l : List (String × ServiceMetrics)) : List (String × ServiceMetrics) :=
  l.foldr insertByName []

/-- The services visible to render_service_health_info (ui.rs lines 546-555):
filter on namespace homelab, then sort alphabetically by name. -/
def filteredHealthServices (app : App) : List (String × ServiceMetrics) :=
  sortByName (app.services.filter fun p => p.2.namespace_ = "homelab")

/-- The selection read of render_service_health_info (ui.rs lines 557-572):
none is the placeholder branch taken when the filtered list is empty or the
selected index is out of range; otherwise the indexed entry is returned. The
App itself is never mutated by rendering. -/
def render_service_health_info (app : App) : Option (String × ServiceMetrics) :=
  let filtered_services := filteredHealthServices app
  if filtered_services.isEmpty ∨ filtered_services.length ≤ app.selected_service_index then
    none
  else
    filtered_services[app.selected_service_index]?

/-- The state of PrometheusClient (prometheus_client.rs) that update_metrics
reads and writes; time instants are naturals (seconds). -/
structure PrometheusClientState where
  query_interval_secs : Nat
  last_update : Option Nat
  cached_nodes : List (String × NodeMetrics)
  cached_services : List (String × ServiceMetrics)

/-- The fetch-and-commit tail of PrometheusClient::update_metrics
(prometheus_client.rs lines 92-114): a failed per-class fetch is only logged
and leaves that cache alone; last_update is set and Ok(true) returned. -/
def clientFetchCommit (st : PrometheusClientState) (now : Nat)
    (nodeFetch : Except String (List (String × NodeMetrics)))
    (serviceFetch : Except String (List (String × ServiceMetrics))) :
    PrometheusClientState × Except String Bool :=
  let st1 := match nodeFetch with
    | Except.ok ns => { st with cached_nodes := ns }
    | Except.error _ => st
  let st2 := match serviceFetch with
    | Except.ok ss => { st1 with cached_services := ss }
    | Except.error _ => st1
  ({ st2 with last_update := some now }, Except.ok true)

/-- PrometheusClient::update_metrics (prometheus_client.rs lines 82-115): if
the previous completed update is recorded and now is strictly inside the
query interval window, return Ok(false) without touching any state; otherwise
fetch and commit. -/
def PrometheusClientState.update_metrics (st : PrometheusClientState) (now : Nat)
    (nodeFetch : Except String (List (String × NodeMetrics)))
    (serviceFetch : Except String (List (String × ServiceMetrics))) :
    PrometheusClientState × Except String Bool :=
  match st.last_update with
  | some last =>
    if now - last < st.query_interval_secs then (st, Except.ok false)
    else clientFetchCommit st now nodeFetch serviceFetch
  | none => clientFetchCommit st now nodeFetch serviceFetch

/-- One reconciliation call: the adapter outcome together with the random
draws the drift fallback would consume. -/
structure ReconStep where
  res : Except String FetchOk
  nd : String → NodeDrift
  sd : String → ServiceDrift

/-- A sequence of update_prometheus_metrics calls. -/
def runRecon (app : App) (steps : List ReconStep) : App :=
  steps.foldl (fun a s => update_prometheus_metrics a s.res s.nd s.sd) app

/-- A sequence of on_tick calls, propagating a panic as none. -/
def runTicks : Nat → App → Option App
  | 0, app => some app
  | n + 1, app => (on_tick app).bind (runTicks n)

/-- Modelled from the spec: the sampling interval as the specification words
it, ceil(1000 / ui_refresh_rate_ms); stated only to compare against the
source computation 1000 / refresh_rate_ms. -/
def specCeilInterval (refresh_rate_ms : Nat) : Nat :=
  (1000 + refresh_rate_ms - 1) / refresh_rate_ms

/-- A concrete node record used by witnesses and counterexamples. -/
def sampleNode : NodeMetrics :=
  { name := "a", ip_address := "ip", status := "Ready", cpu_usage := 1,
    memory_usage := 50, memory_total := 0, gpu_usage := 50, gpu_memory := 55,
    gpu_memory_total := 0, network_rx := 10, network_tx := 10, disk_usage := 50,
    uptime := 0, temperature := 65, cpu_model := "cm", cpu_cores := 6,
    cpu_threads := 12, memory_total_gb := 32, gpu_model := "gm",
    disk_total_gb := 937 }

/-- A concrete service record used by witnesses and counterexamples. -/
def sampleService : ServiceMetrics :=
  { name := "s", namespace_ := "homelab", status := "Running", cpu_usage := 1,
    memory_usage := 35, requests_per_sec := 45, response_time := 125,
    error_rate := 1, uptime := 0, replicas := 1, ready_replicas := 1,
    health_status := "Healthy", health_endpoint := "ep", last_health_check := 0,
    health_response_time := 45, consecutive_failures := 0 }

/-- An all-zero node drift draw (0 lies in every gen_range interval). -/
def zeroNodeDrift : NodeDrift :=
  { d_cpu := 0, d_mem := 0, d_gpu := 0, d_gpu_mem := 0, d_rx := 0, d_tx := 0,
    d_disk := 0 }

/-- An all-zero service drift draw. -/
def zeroServiceDrift : ServiceDrift :=
  { d_cpu := 0, d_mem := 0, d_rps := 0, d_rt := 0, d_err := 0 }

/-- A base App state for concrete instances. -/
def baseApp : App :=
  { current_tab := CurrentTab.Overview, active_panel := ActivePanel.Nodes,
    selected_node_index := 0, selected_service_index := 0,
    filter := { enabled := false, selected_node := none,
                selected_namespace := none, selected_service := none },
    tick_count := 0,
    config := { history_retention := 60, refresh_rate_ms := 250 },
    connection_status := ConnectionStatus.Connecting,
    nodes := [], services := [], node_history := [], service_history := [] }

/-- The App of the C3 scenario: one node, sample interval 4 ticks
(refresh_rate_ms = 250) and retention 5. -/
def appC3 : App :=
  { baseApp with
      nodes := [("a", sampleNode)],
      config := { history_retention := 5, refresh_rate_ms := 250 } }

/-- The App of the C3 witness: one node, sampling every tick, with an
already-full history buffer. -/
def appW3 : App :=
  { baseApp with
      nodes := [("a", sampleNode)],
      node_history := [("a", [1, 1, 1, 1, 1])],
      config := { history_retention := 5, refresh_rate_ms := 1000 } }

/-- The App of the C6 counterexample: refresh_rate_ms = 300 makes the floor
quotient 1000 / 300 = 3 differ from ceil(1000 / 300) = 4; tick_count = 2 so
the next tick is number 3. -/
def appC6 : App :=
  { baseApp with
      nodes := [("a", sampleNode)],
      tick_count := 2,
      config := { history_retention := 60, refresh_rate_ms := 300 } }

/-- The App of the C6 witness: refresh_rate_ms = 1000 samples on every tick. -/
def appW6 : App :=
  { baseApp with
      nodes := [("a", sampleNode)],
      config := { history_retention := 60, refresh_rate_ms := 1000 } }

/-- An App configured with refresh_rate_ms = 0 (division by zero on tick). -/
def appC10zero : App :=
  { baseApp with config := { history_retention := 60, refresh_rate_ms := 0 } }

/-- An App configured with refresh_rate_ms = 2000 > 1000 (remainder by zero
on tick). -/
def appC10big : App :=
  { baseApp with config := { history_retention := 60, refresh_rate_ms := 2000 } }

/-- A service record outside the homelab namespace, used by the C4
counterexample. -/
def svcC4 : ServiceMetrics :=
  { sampleService with namespace_ := "other" }

/-- The App of the C4 counterexample: services panel active, one service that
the health renderer's namespace filter drops, selected index 0. -/
def appC4 : App :=
  { baseApp with
      active_panel := ActivePanel.Services,
      services := [("s", svcC4)] }

/-- A second C4 App: nodes panel active with a selected index already out of
range of the single-node map. -/
def appC4b : App :=
  { baseApp with
      nodes := [("a", sampleNode)],
      selected_node_index := 5 }

/-- The App of the C4 witness: services panel active over one in-filter
service. -/
def appW4 : App :=
  { baseApp with
      active_panel := ActivePanel.Services,
      services := [("s", sampleService)] }

/-- The node of the C9 counterexample: gpu_memory = 0, far below the drift
clamp range [30, 70] (the asuna seed of generate_mock_metrics really carries
gpu_memory = 0.0). -/
def nodeC9 : NodeMetrics :=
  { sampleNode with gpu_memory := 0 }

/-- A node whose drifted fields all start inside their clamp ranges. -/
def nodeW9 : NodeMetrics :=
  { sampleNode with
      cpu_usage := 50, memory_usage := 50, gpu_usage := 50, gpu_memory := 50,
      network_rx := 100, network_tx := 100, disk_usage := 50 }

/-- A service whose drifted fields all start inside their clamp ranges. -/
def svcW9 : ServiceMetrics :=
  { sampleService with
      cpu_usage := 10, memory_usage := 30, requests_per_sec := 50,
      response_time := 100, error_rate := 1 }

/-- A client state whose last completed update was at second 10. -/
def clientW : PrometheusClientState :=
  { query_interval_secs := 5, last_update := some 10, cached_nodes := [],
    cached_services := [] }

/-- A concrete App holding one service, used by the C7 counterexample. -/
def appC7 : App :=
  { baseApp with services := [("s", sampleService)] }

/-- A candidate service record whose ready_replicas differs from the existing
record's. -/
def candC7 : ServiceMetrics :=
  { sampleService with ready_replicas := 0, cpu_usage := 2 }

/-- The fields of a NodeMetrics record that a reconciliation must never
touch: the identity (name, ip_address) and the static hardware descriptors
(cpu_model, cpu_cores, cpu_threads, memory_total_gb, gpu_model,
disk_total_gb). -/
def nodeStatics (n : NodeMetrics) :
    String × String × String × Nat × Nat × ℚ × String × ℚ :=
  (n.name, n.ip_address, n.cpu_model, n.cpu_cores, n.cpu_threads,
    n.memory_total_gb, n.gpu_model, n.disk_total_gb)

/-- The replica and health-probe fields of a ServiceMetrics record other than
ready_replicas: replicas, health_status, health_endpoint, last_health_check,
health_response_time, consecutive_failures. -/
def serviceHealthFields (s : ServiceMetrics) :
    Nat × String × String × Nat × ℚ × Nat :=
  (s.replicas, s.health_status, s.health_endpoint, s.last_health_check,
    s.health_response_time, s.consecutive_failures)

/-- Every history buffer in the map respects the retention bound. -/
def boundedHist (l : List (String × List ℚ)) (m : Nat) : Prop :=
  ∀ p ∈ l, (Prod.snd p).length ≤ m

/-- Repeated sampling into one buffer that starts empty. -/
def foldSamples (xs : List ℚ) (m : Nat) : List ℚ :=
  xs.foldl (fun h x => pushSample h x m) []

section Lemmas

variable {α β : Type}

theorem alookup_mapVal (k : String) (f : String → α → β) (l : List (String × α)) :
    alookup k (l.map fun p => (p.1, f p.1 p.2)) = (alookup k l).map (f k) := by
  induction l with
  | nil => rfl
  | cons p rest ih =>
    by_cases h : p.1 = k
    · subst h
      simp [alookup]
    · simp [alookup, h, ih]

theorem keysOf_mapVal (f : String → α → β) (l : List (String × α)) :
    keysOf (l.map fun p => (p.1, f p.1 p.2)) = keysOf l := by
  induction l with
  | nil => rfl
  | cons p rest ih => simp_all [keysOf]

theorem nodeStatics_mergeNode (e c : NodeMetrics) :
    nodeStatics (mergeNode e c) = nodeStatics e := rfl

theorem nodeStatics_driftNode (n : NodeMetrics) (d : NodeDrift) :
    nodeStatics (driftNode n d) = nodeStatics n := rfl

theorem nodeStatics_fetchedNode (cand : List (String × NodeMetrics)) (k : String)
    (v : NodeMetrics) : nodeStatics (fetchedNode cand k v) = nodeStatics v := by
  unfold fetchedNode
  split <;> rfl

theorem serviceHealthFields_mergeService (e c : ServiceMetrics) :
    serviceHealthFields (mergeService e c) = serviceHealthFields e := rfl

theorem serviceHealthFields_driftService (s : ServiceMetrics) (d : ServiceDrift) :
    serviceHealthFields (driftService s d) = serviceHealthFields s := rfl

theorem serviceHealthFields_fetchedService (cand : List (String × ServiceMetrics))
    (k : String) (v : ServiceMetrics) :
    serviceHealthFields (fetchedService cand k v) = serviceHealthFields v := by
  unfold fetchedService
  split <;> rfl

theorem keysOf_step (app : App) (res : Except String FetchOk) (nd : String → NodeDrift)
    (sd : String → ServiceDrift) :
    keysOf (update_prometheus_metrics app res nd sd).nodes = keysOf app.nodes ∧
    keysOf (update_prometheus_metrics app res nd sd).services = keysOf app.services := by
  cases res with
  | ok r =>
    by_cases hu : r.updated <;>
      simp [update_prometheus_metrics, hu, updateNodes, updateServices,
        keysOf_mapVal]
  | error e =>
    simp only [update_prometheus_metrics, update_mock_metrics]
    exact ⟨keysOf_mapVal (fun k0 v => driftNode v (nd k0)) app.nodes,
           keysOf_mapVal (fun k0 v => driftService v (sd k0)) app.services⟩

theorem nodeStatics_map_step (app : App) (res : Except String FetchOk)
    (nd : String → NodeDrift) (sd : String → ServiceDrift) (k : String) :
    (alookup k (update_prometheus_metrics app res nd sd).nodes).map nodeStatics =
      (alookup k app.nodes).map nodeStatics := by
  cases res with
  | ok r =>
    by_cases hu : r.updated
    · simp only [update_prometheus_metrics, hu, if_pos, updateNodes]
      rw [alookup_mapVal k (fun k0 v => fetchedNode r.nodes k0 v)]
      cases alookup k app.nodes <;> simp [nodeStatics_fetchedNode]
    · simp [update_prometheus_metrics, hu]
  | error e =>
    simp only [update_prometheus_metrics, update_mock_metrics]
    rw [alookup_mapVal k (fun k0 v => driftNode v (nd k0))]
    cases alookup k app.nodes <;> simp [nodeStatics_driftNode]

theorem serviceHealthFields_map_step (app : App) (res : Except String FetchOk)
    (nd : String → NodeDrift) (sd : String → ServiceDrift) (k : String) :
    (alookup k (update_prometheus_metrics app res nd sd).services).map serviceHealthFields =
      (alookup k app.services).map serviceHealthFields := by
  cases res with
  | ok r =>
    by_cases hu : r.updated
    · simp only [update_prometheus_metrics, hu, if_pos, updateServices]
      rw [alookup_mapVal k (fun k0 v => fetchedService r.services k0 v)]
      cases alookup k app.services <;> simp [serviceHealthFields_fetchedService]
    · simp [update_prometheus_metrics, hu]
  | error e =>
    simp only [update_prometheus_metrics, update_mock_metrics]
    rw [alookup_mapVal k (fun k0 v => driftService v (sd k0))]
    cases alookup k app.services <;> simp [serviceHealthFields_driftService]

theorem runRecon_cons (app : App) (s : ReconStep) (steps : List ReconStep) :
    runRecon app (s :: steps) =
      runRecon (update_prometheus_metrics app s.res s.nd s.sd) steps := rfl

theorem eraseIdx_zero_eq_drop_one (l : List ℚ) : l.eraseIdx 0 = l.drop 1 := by
  cases l <;> rfl

theorem pushSample_eq_drop (h : List ℚ) (x : ℚ) (m : Nat) (hle : h.length ≤ m) :
    pushSample h x m = (h ++ [x]).drop (h.length + 1 - m) := by
  unfold pushSample
  split_ifs with hlt
  · simp only [List.length_append, List.length_singleton] at hlt
    have hm : h.length = m := by omega
    rw [eraseIdx_zero_eq_drop_one]
    congr 1
    omega
  · simp only [List.length_append, List.length_singleton] at hlt
    have h0 : h.length + 1 - m = 0 := by omega
    rw [h0, List.drop_zero]

theorem pushSample_length (h : List ℚ) (x : ℚ) (m : Nat) (hle : h.length ≤ m) :
    (pushSample h x m).length ≤ m := by
  rw [pushSample_eq_drop h x m hle, List.length_drop, List.length_append,
    List.length_singleton]
  omega

theorem foldl_pushSample_eq_drop (m : Nat) (xs : List ℚ) (h : List ℚ)
    (hle : h.length ≤ m) :
    xs.foldl (fun acc x => pushSample acc x m) h =
      (h ++ xs).drop (h.length + xs.length - m) := by
  induction xs generalizing h with
  | nil =>
    simp only [List.foldl_nil, List.length_nil, List.append_nil]
    rw [show h.length + 0 - m = 0 by omega, List.drop_zero]
  | cons x rest ih =>
    rw [List.foldl_cons, ih _ (pushSample_length h x m hle),
      pushSample_eq_drop h x m hle]
    rw [← List.drop_append_of_le_length
      (by simp only [List.length_drop, List.length_append, List.length_singleton]; omega),
      List.drop_drop]
    simp only [List.length_drop, List.length_append, List.length_singleton,
      List.length_cons, List.length_nil, List.append_assoc, List.singleton_append]
    congr 1
    omega

theorem boundedHist_upsertHist (h : List (String × List ℚ)) (k : String) (x : ℚ)
    (m : Nat) (hb : boundedHist h m) : boundedHist (upsertHist h k x m) m := by
  induction h with
  | nil =>
    intro p hp
    simp only [upsertHist, List.mem_singleton] at hp
    subst hp
    exact pushSample_length [] x m (Nat.zero_le m)
  | cons q rest ih =>
    intro p hp
    unfold upsertHist at hp
    split_ifs at hp with hq
    · rcases List.mem_cons.1 hp with h1 | h2
      · subst h1
        exact pushSample_length q.2 x m (hb q (List.mem_cons_self q rest))
      · exact hb p (List.mem_cons_of_mem q h2)
    · rcases List.mem_cons.1 hp with h1 | h2
      · subst h1
        exact hb p (List.mem_cons_self p rest)
      · exact ih (fun r hr => hb r (List.mem_cons_of_mem q hr)) p h2

theorem updateHistories_cons (h : List (String × List ℚ)) (e : String × ℚ)
    (rest : List (String × ℚ)) (m : Nat) :
    updateHistories h (e :: rest) m =
      updateHistories (upsertHist h e.1 e.2 m) rest m := rfl

theorem boundedHist_updateHistories (ents : List (String × ℚ))
    (h : List (String × List ℚ)) (m : Nat) (hb : boundedHist h m) :
    boundedHist (updateHistories h ents m) m := by
  induction ents generalizing h with
  | nil => exact hb
  | cons e rest ih =>
    rw [updateHistories_cons]
    exact ih _ (boundedHist_upsertHist h e.1 e.2 m hb)

theorem alookup_upsertHist_self (h : List (String × List ℚ)) (k : String) (x : ℚ)
    (m : Nat) :
    alookup k (upsertHist h k x m) =
      some (pushSample ((alookup k h).getD []) x m) := by
  induction h with
  | nil => simp [upsertHist, alookup]
  | cons p rest ih =>
    by_cases hp : p.1 = k
    · simp [upsertHist, alookup, hp]
    · simp [upsertHist, alookup, hp, ih]

theorem alookup_upsertHist_other (h : List (String × List ℚ)) (k k2 : String)
    (x : ℚ) (m : Nat) (hne : k2 ≠ k) :
    alookup k2 (upsertHist h k x m) = alookup k2 h := by
  have hne2 : k ≠ k2 := fun c => hne c.symm
  induction h with
  | nil => simp [upsertHist, alookup, hne2]
  | cons p rest ih =>
    by_cases hp : p.1 = k
    · simp [upsertHist, alookup, hp, hne2]
    · by_cases hq : p.1 = k2 <;> simp [upsertHist, alookup, hp, hq, ih, hne, hne2]

theorem alookup_updateHistories_not_mem :
    ∀ (ents : List (String × ℚ)) (h : List (String × List ℚ)) (k : String)
      (m : Nat), k ∉ keysOf ents →
      alookup k (updateHistories h ents m) = alookup k h
  | [], _, _, _, _ => rfl
  | e :: rest, h, k, m, hk => by
    simp only [keysOf, List.map_cons, List.mem_cons, not_or] at hk
    rw [updateHistories_cons,
      alookup_updateHistories_not_mem rest _ k m hk.2,
      alookup_upsertHist_other h e.1 k e.2 m hk.1]

theorem alookup_updateHistories_self :
    ∀ (ents : List (String × ℚ)) (h : List (String × List ℚ)) (k : String)
      (v : ℚ) (m : Nat), (keysOf ents).Nodup → alookup k ents = some v →
      alookup k (updateHistories h ents m) =
        some (pushSample ((alookup k h).getD []) v m)
  | [], _, _, _, _, _, hv => by simp [alookup] at hv
  | e :: rest, h, k, v, m, hnd, hv => by
    rw [updateHistories_cons]
    by_cases he : e.1 = k
    · have hveq : e.2 = v := by
        simp only [alookup, he, if_pos, Option.some.injEq] at hv
        exact hv
      have hk : k ∉ keysOf rest := by
        simp only [keysOf, List.map_cons, List.nodup_cons] at hnd
        rw [he] at hnd
        exact hnd.1
      rw [alookup_updateHistories_not_mem rest _ k m hk]
      rw [show e.1 = k from he, alookup_upsertHist_self, hveq]
    · have hv2 : alookup k rest = some v := by
        simpa only [alookup, he, if_neg, if_false] using hv
      have hnd2 : (keysOf rest).Nodup := by
        simp only [keysOf, List.map_cons, List.nodup_cons] at hnd
        exact hnd.2
      rw [alookup_updateHistories_self rest _ k v m hnd2 hv2,
        alookup_upsertHist_other h e.1 k e.2 m (fun c => he c.symm)]

theorem rclamp_mem (x lo hi : ℚ) (h : lo ≤ hi) :
    lo ≤ rclamp x lo hi ∧ rclamp x lo hi ≤ hi := by
  unfold rclamp
  split_ifs with h1 h2
  · exact ⟨le_refl lo, h⟩
  · exact ⟨h, le_refl hi⟩
  · constructor <;> linarith

theorem rclamp_step (x d lo hi : ℚ) (hx1 : lo ≤ x) (hx2 : x ≤ hi) :
    |rclamp (x + d) lo hi - x| ≤ |d| := by
  have h1 := le_abs_self d
  have h2 := neg_abs_le d
  rw [abs_le]
  unfold rclamp
  split_ifs with ha hb <;> constructor <;> linarith

theorem on_tick_step (app app2 : App) (h : on_tick app = some app2) :
    app2.config = app.config ∧
    app2.nodes = app.nodes ∧
    app2.services = app.services ∧
    app2.tick_count = app.tick_count + 1 ∧
    (boundedHist app.node_history app.config.history_retention →
      boundedHist app2.node_history app.config.history_retention) ∧
    (boundedHist app.service_history app.config.history_retention →
      boundedHist app2.service_history app.config.history_retention) := by
  simp only [on_tick, update_history] at h
  split_ifs at h with h0 h1 h2 <;>
  first
    | exact Option.noConfusion h
    | (obtain rfl := Option.some.inj h
       exact ⟨rfl, rfl, rfl, rfl, id, id⟩)
    | (obtain rfl := Option.some.inj h
       exact ⟨rfl, rfl, rfl, rfl, boundedHist_updateHistories _ _ _,
         boundedHist_updateHistories _ _ _⟩)

end Lemmas

/-- C1: for every sequence of update_prometheus_metrics calls, whatever each
adapter outcome is, the key list (set and order of identities) of App.nodes
and App.services is exactly what it was at construction; a successful fetch
only overwrites values at keys already present and never inserts candidate
keys. -/
theorem C1_identity_stability (app : App) (steps : List ReconStep) :
    keysOf (runRecon app steps).nodes = keysOf app.nodes ∧
    keysOf (runRecon app steps).services = keysOf app.services := by
  induction steps generalizing app with
  | nil => exact ⟨rfl, rfl⟩
  | cons s rest ih =>
    rw [runRecon_cons]
    obtain ⟨h1, h2⟩ := ih (update_prometheus_metrics app s.res s.nd s.sd)
    obtain ⟨g1, g2⟩ := keysOf_step app s.res s.nd s.sd
    exact ⟨h1.trans g1, h2.trans g2⟩

/-- C2: under every sequence of reconciliations (success merges and drift
fallbacks alike), each node record's identity fields (name, ip_address) and
static hardware descriptors (cpu_model, cpu_cores, cpu_threads,
memory_total_gb, gpu_model, disk_total_gb) keep the value they had at first
insertion; only live-metrics fields are ever replaced. -/
theorem C2_hardware_immutability (app : App) (steps : List ReconStep) (k : String) :
    (alookup k (runRecon app steps).nodes).map nodeStatics =
      (alookup k app.nodes).map nodeStatics := by
  induction steps generalizing app with
  | nil => rfl
  | cons s rest ih =>
    rw [runRecon_cons]
    exact (ih _).trans (nodeStatics_map_step app s.res s.nd s.sd k)

/-- C5: when the adapter reports an error, update_prometheus_metrics keeps
every node and service record in place (key lists unchanged, no record
removed or replaced wholesale), sets connection_status to
Disconnected(reason), and the only mutation applied to each record is the
bounded drift step; the embedding is a total function, so the call cannot
panic. -/
theorem C5_error_path_preserves_records (app : App) (e : String)
    (nd : String → NodeDrift) (sd : String → ServiceDrift) :
    keysOf (update_prometheus_metrics app (Except.error e) nd sd).nodes =
        keysOf app.nodes ∧
    keysOf (update_prometheus_metrics app (Except.error e) nd sd).services =
        keysOf app.services ∧
    (update_prometheus_metrics app (Except.error e) nd sd).connection_status =
        ConnectionStatus.Disconnected e ∧
    (∀ k, alookup k (update_prometheus_metrics app (Except.error e) nd sd).nodes =
        (alookup k app.nodes).map fun v => driftNode v (nd k)) ∧
    (∀ k, alookup k (update_prometheus_metrics app (Except.error e) nd sd).services =
        (alookup k app.services).map fun v => driftService v (sd k)) := by
  obtain ⟨g1, g2⟩ := keysOf_step app (Except.error e) nd sd
  refine ⟨g1, g2, rfl, fun k => ?_, fun k => ?_⟩
  · exact alookup_mapVal k (fun k0 v => driftNode v (nd k0)) app.nodes
  · exact alookup_mapVal k (fun k0 v => driftService v (sd k0)) app.services

/-- C7 counterexample: the success path of update_prometheus_metrics copies
ready_replicas from the candidate (app.rs line 197), so a replica-count field
is not left unchanged by the path that updates core resource metrics: with an
existing service at ready_replicas = 1 and a candidate at ready_replicas = 0,
one successful reconciliation overwrites it with 0. -/
theorem C7_health_fields_counterexample :
    (alookup "s" (update_prometheus_metrics appC7
        (Except.ok { updated := true, nodes := [], services := [("s", candC7)] })
        (fun _ => zeroNodeDrift) (fun _ => zeroServiceDrift)).services).map
      ServiceMetrics.ready_replicas = some 0 ∧
    (alookup "s" appC7.services).map ServiceMetrics.ready_replicas = some 1 :=
  ⟨rfl, rfl⟩

/-- C7 (amended): every reconciliation path leaves replicas, health_status,
health_endpoint, last_health_check, health_response_time and
consecutive_failures of every service unchanged, and the drift fallback taken
on a resource-metric fetch failure additionally leaves ready_replicas
unchanged (the success path instead copies ready_replicas from the
candidate). -/
theorem C7_health_fields_amended :
    (∀ (app : App) (res : Except String FetchOk) (nd : String → NodeDrift)
        (sd : String → ServiceDrift) (k : String),
      (alookup k (update_prometheus_metrics app res nd sd).services).map
          serviceHealthFields =
        (alookup k app.services).map serviceHealthFields) ∧
    (∀ (app : App) (e : String) (nd : String → NodeDrift)
        (sd : String → ServiceDrift) (k : String),
      (alookup k (update_prometheus_metrics app (Except.error e) nd sd).services).map
          ServiceMetrics.ready_replicas =
        (alookup k app.services).map ServiceMetrics.ready_replicas) := by
  constructor
  · exact fun app res nd sd k => serviceHealthFields_map_step app res nd sd k
  · intro app e nd sd k
    simp only [update_prometheus_metrics, update_mock_metrics]
    rw [alookup_mapVal k (fun k0 v => driftService v (sd k0))]
    cases alookup k app.services <;> rfl

/-- C3: under every sequence of on_tick calls the length of every entity's
history buffer stays at most history_retention; every sample event appends at
the end and FIFO-evicts the oldest once full, so a buffer that received the
samples xs holds exactly the most recent min(len(xs), retention) of them in
order; and the concrete scenario of 40 ticks with sample interval 4
(refresh_rate_ms = 250) and retention 5 ends with tick_count 40 and a buffer
of length 5 holding the 5 most recent samples. -/
theorem C3_history_bound :
    (∀ (n : Nat) (app app2 : App), runTicks n app = some app2 →
      boundedHist app.node_history app.config.history_retention →
      boundedHist app.service_history app.config.history_retention →
      boundedHist app2.node_history app2.config.history_retention ∧
      boundedHist app2.service_history app2.config.history_retention) ∧
    (∀ (xs : List ℚ) (m : Nat), foldSamples xs m = xs.drop (xs.length - m)) ∧
    (runTicks 40 appC3).map (fun a => (a.tick_count, alookup "a" a.node_history)) =
      some (40, some [1, 1, 1, 1, 1]) := by
  refine ⟨?_, ?_, ?_⟩
  · intro n
    induction n with
    | zero =>
      intro app app2 h hb1 hb2
      obtain rfl := Option.some.inj h
      exact ⟨hb1, hb2⟩
    | succ n ih =>
      intro app app2 h hb1 hb2
      simp only [runTicks] at h
      cases hc : on_tick app with
      | none => rw [hc] at h; exact Option.noConfusion h
      | some a1 =>
        rw [hc] at h
        simp only [Option.some_bind] at h
        obtain ⟨hcfg, _, _, _, hbn, hbs⟩ := on_tick_step app a1 hc
        exact ih a1 app2 h (by rw [hcfg]; exact hbn hb1) (by rw [hcfg]; exact hbs hb2)
  · intro xs m
    have h := foldl_pushSample_eq_drop m xs [] (Nat.zero_le m)
    simp only [List.nil_append, List.length_nil, Nat.zero_add] at h
    exact h
  · rfl

/-- C3 witness: one tick on a state whose single full buffer (5 samples,
retention 5) keeps every buffer within the bound. -/
theorem C3_history_bound_witness :
    boundedHist (((runTicks 1 appW3).getD appW3).node_history)
      (((runTicks 1 appW3).getD appW3).config.history_retention) := by
  obtain ⟨a2, ha⟩ : ∃ a2, runTicks 1 appW3 = some a2 := ⟨_, rfl⟩
  have hb1 : boundedHist appW3.node_history appW3.config.history_retention := by
    show ∀ p ∈ appW3.node_history, (Prod.snd p).length ≤ appW3.config.history_retention
    decide
  have hb2 : boundedHist appW3.service_history appW3.config.history_retention := by
    show ∀ p ∈ appW3.service_history, (Prod.snd p).length ≤ appW3.config.history_retention
    decide
  have h := C3_history_bound.1 1 appW3 a2 ha hb1 hb2
  rw [ha]
  exact h.1

/-- C6 counterexample: with refresh_rate_ms = 300 the source samples on tick
counts that are multiples of the floor quotient 1000 / 300 = 3, not of
ceil(1000 / 300) = 4: the tick that raises tick_count to 3 appends a sample
(the history map gains an entry) although 3 is not a multiple of 4. -/
theorem C6_sampling_counterexample :
    (on_tick appC6).map (fun a => a.node_history.length) = some 1 ∧
    appC6.node_history.length = 0 ∧
    (appC6.tick_count + 1) % specCeilInterval appC6.config.refresh_rate_ms ≠ 0 := by
  refine ⟨rfl, rfl, by decide⟩

/-- C6 (amended): on_tick increments tick_count by exactly one, and a history
sample is appended for every tracked entity exactly on the ticks whose count
is a multiple of N where N is the integer (floor) quotient
1000 / refresh_rate_ms; all other ticks leave both history maps unchanged. -/
theorem C6_tick_sampling_amended (app app2 : App) (h : on_tick app = some app2) :
    app2.tick_count = app.tick_count + 1 ∧
    ((app.tick_count + 1) % (1000 / app.config.refresh_rate_ms) ≠ 0 →
      app2.node_history = app.node_history ∧
      app2.service_history = app.service_history) ∧
    ((app.tick_count + 1) % (1000 / app.config.refresh_rate_ms) = 0 →
      ((keysOf app.nodes).Nodup →
        ∀ k n, alookup k app.nodes = some n →
          alookup k app2.node_history =
            some (pushSample ((alookup k app.node_history).getD []) n.cpu_usage
              app.config.history_retention)) ∧
      ((keysOf app.services).Nodup →
        ∀ k s, alookup k app.services = some s →
          alookup k app2.service_history =
            some (pushSample ((alookup k app.service_history).getD []) s.cpu_usage
              app.config.history_retention))) := by
  simp only [on_tick, update_history] at h
  split_ifs at h with h0 h1 h2
  · obtain rfl := Option.some.inj h
    exact ⟨rfl, fun _ => ⟨rfl, rfl⟩, fun hz => absurd hz h2⟩
  · obtain rfl := Option.some.inj h
    have hz : (app.tick_count + 1) % (1000 / app.config.refresh_rate_ms) = 0 := by
      by_contra hc
      exact h2 hc
    refine ⟨rfl, fun hnz => absurd hz hnz, fun _ => ⟨?_, ?_⟩⟩
    · intro hnd k n hk
      have hents : alookup k (app.nodes.map fun p => (p.1, p.2.cpu_usage)) =
          some n.cpu_usage := by
        rw [alookup_mapVal k (fun _ v => v.cpu_usage) app.nodes, hk]
        rfl
      have hnd2 : (keysOf (app.nodes.map fun p => (p.1, p.2.cpu_usage))).Nodup := by
        rw [keysOf_mapVal (fun _ v => v.cpu_usage) app.nodes]
        exact hnd
      exact alookup_updateHistories_self _ _ k n.cpu_usage _ hnd2 hents
    · intro hnd k s hk
      have hents : alookup k (app.services.map fun p => (p.1, p.2.cpu_usage)) =
          some s.cpu_usage := by
        rw [alookup_mapVal k (fun _ v => v.cpu_usage) app.services, hk]
        rfl
      have hnd2 : (keysOf (app.services.map fun p => (p.1, p.2.cpu_usage))).Nodup := by
        rw [keysOf_mapVal (fun _ v => v.cpu_usage) app.services]
        exact hnd
      exact alookup_updateHistories_self _ _ k s.cpu_usage _ hnd2 hents

/-- C6 witness: with refresh_rate_ms = 1000 the first tick is a sampling tick
and appends the node's cpu sample to its (fresh) buffer. -/
theorem C6_tick_sampling_witness :
    (on_tick appW6).map App.tick_count = some 1 ∧
    (on_tick appW6).map (fun a => alookup "a" a.node_history) =
      some (some (pushSample [] sampleNode.cpu_usage 60)) := by
  obtain ⟨a2, ha⟩ : ∃ a2, on_tick appW6 = some a2 := ⟨_, rfl⟩
  have h := C6_tick_sampling_amended appW6 a2 ha
  have hs := (h.2.2 (by decide)).1 (by decide) "a" sampleNode rfl
  rw [ha]
  constructor
  · simp only [Option.map_some']
    rw [h.1]
    rfl
  · simp only [Option.map_some']
    rw [hs]
    rfl

/-- C10: on_tick is total exactly on the configurations with
1 ≤ refresh_rate_ms ≤ 1000: the quotient 1000 / refresh_rate_ms is positive
there, while refresh_rate_ms = 0 divides by zero and refresh_rate_ms > 1000
makes the quotient 0 and the tick modulo a remainder by zero (both modelled
as none, the Rust panic). -/
theorem C10_on_tick_totality (app : App) :
    (1 ≤ app.config.refresh_rate_ms → app.config.refresh_rate_ms ≤ 1000 →
      (on_tick app).isSome) ∧
    (app.config.refresh_rate_ms = 0 → on_tick app = none) ∧
    (1000 < app.config.refresh_rate_ms → on_tick app = none) := by
  refine ⟨?_, ?_, ?_⟩
  · intro hge hle
    have h0 : ¬ app.config.refresh_rate_ms = 0 := by omega
    have hq : 0 < 1000 / app.config.refresh_rate_ms := Nat.div_pos hle (by omega)
    have hq0 : ¬ 1000 / app.config.refresh_rate_ms = 0 := by omega
    simp only [on_tick, update_history, h0, hq0, if_false]
    split_ifs <;> rfl
  · intro h0
    simp [on_tick, update_history, h0]
  · intro hgt
    have h0 : ¬ app.config.refresh_rate_ms = 0 := by omega
    have hq : 1000 / app.config.refresh_rate_ms = 0 := Nat.div_eq_of_lt hgt
    simp [on_tick, update_history, h0, hq]

/-- C10 witness: the default 250 ms configuration ticks successfully, while
refresh_rate_ms = 0 and refresh_rate_ms = 2000 are the two panic shapes. -/
theorem C10_on_tick_totality_witness :
    (on_tick baseApp).isSome ∧
    on_tick appC10zero = none ∧
    on_tick appC10big = none :=
  ⟨(C10_on_tick_totality baseApp).1 (by decide) (by decide),
   (C10_on_tick_totality appC10zero).2.1 rfl,
   (C10_on_tick_totality appC10big).2.2 (by decide)⟩

/-- C4 counterexample: navigation clamps only against the full backing map,
not the filtered view, so with one service outside the health renderer's
namespace filter the post-navigation index 0 is not below the filtered view's
size 0; and navigate_up merely decrements an already out-of-range index
(5 over a single-node map becomes 4, still not below the map size). -/
theorem C4_selection_counterexample :
    ¬ ((navigate_down appC4).selected_service_index <
        (filteredHealthServices (navigate_down appC4)).length) ∧
    ¬ ((navigate_up appC4b).selected_node_index < appC4b.nodes.length) := by
  constructor <;> decide

/-- C4 (amended): when the active panel's backing map is nonempty,
navigate_down keeps the panel's selected index below the full map size, and
navigate_up does so provided the index was already in range; an empty map
leaves the state unchanged. The renderer never mutates (and so never clamps)
the index: render_service_health_info is total and returns the placeholder
(none) exactly when the filtered view is empty or the index is outside it,
so an out-of-range index cannot cause a panic. -/
theorem C4_selection_clamp_amended (app : App) :
    (app.active_panel = ActivePanel.Nodes → 0 < app.nodes.length →
      (navigate_down app).selected_node_index < app.nodes.length) ∧
    (app.active_panel = ActivePanel.Nodes → 0 < app.nodes.length →
      app.selected_node_index < app.nodes.length →
      (navigate_up app).selected_node_index < app.nodes.length) ∧
    (app.active_panel = ActivePanel.Services → 0 < app.services.length →
      (navigate_down app).selected_service_index < app.services.length) ∧
    (app.active_panel = ActivePanel.Services → 0 < app.services.length →
      app.selected_service_index < app.services.length →
      (navigate_up app).selected_service_index < app.services.length) ∧
    (app.active_panel = ActivePanel.Nodes → app.nodes.length = 0 →
      navigate_down app = app ∧ navigate_up app = app) ∧
    (app.active_panel = ActivePanel.Services → app.services.length = 0 →
      navigate_down app = app ∧ navigate_up app = app) ∧
    (render_service_health_info app = none ↔
      filteredHealthServices app = [] ∨
        (filteredHealthServices app).length ≤ app.selected_service_index) := by
  refine ⟨?_, ?_, ?_, ?_, ?_, ?_, ?_⟩
  · intro hp hlen
    simp only [navigate_down, hp, next_node]
    rw [if_pos hlen]
    exact Nat.mod_lt _ hlen
  · intro hp hlen hidx
    simp only [navigate_up, hp, previous_node]
    rw [if_pos hlen]
    show (if app.selected_node_index = 0 then app.nodes.length - 1
      else app.selected_node_index - 1) < app.nodes.length
    split_ifs <;> omega
  · intro hp hlen
    simp only [navigate_down, hp, next_service]
    rw [if_pos hlen]
    exact Nat.mod_lt _ hlen
  · intro hp hlen hidx
    simp only [navigate_up, hp, previous_service]
    rw [if_pos hlen]
    show (if app.selected_service_index = 0 then app.services.length - 1
      else app.selected_service_index - 1) < app.services.length
    split_ifs <;> omega
  · intro hp hlen
    have h0 : ¬ 0 < app.nodes.length := by omega
    constructor
    · simp only [navigate_down, hp, next_node]
      rw [if_neg h0]
    · simp only [navigate_up, hp, previous_node]
      rw [if_neg h0]
  · intro hp hlen
    have h0 : ¬ 0 < app.services.length := by omega
    constructor
    · simp only [navigate_down, hp, next_service]
      rw [if_neg h0]
    · simp only [navigate_up, hp, previous_service]
      rw [if_neg h0]
  · simp only [render_service_health_info]
    split_ifs with hg
    · refine iff_of_true rfl ?_
      rcases hg with hg | hg
      · exact Or.inl (List.isEmpty_iff.mp hg)
      · exact Or.inr hg
    · rw [not_or] at hg
      obtain ⟨hg1, hg2⟩ := hg
      have hlt : app.selected_service_index < (filteredHealthServices app).length := by
        omega
      refine iff_of_false ?_ ?_
      · intro hc
        rw [List.getElem?_eq_getElem hlt] at hc
        exact Option.noConfusion hc
      · intro hc
        rcases hc with hc | hc
        · exact hg1 (by simp [hc])
        · omega

/-- C4 witness: on a one-service app with the services panel active both
navigation moves keep the index below the map size, and the render guard iff
holds. -/
theorem C4_selection_clamp_witness :
    (navigate_down appW4).selected_service_index < appW4.services.length ∧
    (navigate_up appW4).selected_service_index < appW4.services.length ∧
    (render_service_health_info appW4 = none ↔
      filteredHealthServices appW4 = [] ∨
        (filteredHealthServices appW4).length ≤ appW4.selected_service_index) := by
  have h := C4_selection_clamp_amended appW4
  exact ⟨h.2.2.1 rfl (by decide), h.2.2.2.1 rfl (by decide) (by decide),
    h.2.2.2.2.2.2⟩

/-- C8: a call to PrometheusClient::update_metrics strictly inside the
query-interval window after the previous completed update performs no fetch
(the result is the same whatever the fetch inputs would return), returns
Ok(false), and leaves the whole client state, cached_nodes, cached_services
and last_update included, unchanged. -/
theorem C8_throttle_no_update (st : PrometheusClientState) (now last : Nat)
    (nodeFetch : Except String (List (String × NodeMetrics)))
    (serviceFetch : Except String (List (String × ServiceMetrics)))
    (hl : st.last_update = some last)
    (hw : now - last < st.query_interval_secs) :
    st.update_metrics now nodeFetch serviceFetch = (st, Except.ok false) := by
  unfold PrometheusClientState.update_metrics
  rw [hl]
  simp [hw]

/-- C8 witness: at second 12, two seconds after an update with a 5 second
interval, the throttled call returns Ok(false) and keeps the state. -/
theorem C8_throttle_no_update_witness :
    clientW.update_metrics 12 (Except.error "down") (Except.ok []) =
      (clientW, Except.ok false) :=
  C8_throttle_no_update clientW 12 10 (Except.error "down") (Except.ok [])
    rfl (by decide)

/-- C9 counterexample: the claim's per-step-delta bound fails when a prior
value sits outside its clamp range: gpu_memory = 0 (as the asuna record of
generate_mock_metrics really has) with a zero draw is clamped up to 30, a
jump larger than the 0.2 gen_range magnitude for that field. -/
theorem C9_drift_counterexample :
    zeroNodeDrift.InRange ∧
    |(driftNode nodeC9 zeroNodeDrift).gpu_memory - nodeC9.gpu_memory| > 0.2 := by
  constructor
  · norm_num [NodeDrift.InRange, zeroNodeDrift]
  · have h1 : (driftNode nodeC9 zeroNodeDrift).gpu_memory = 30 := by
      show rclamp (nodeC9.gpu_memory + zeroNodeDrift.d_gpu_mem) 30 70 = 30
      norm_num [nodeC9, sampleNode, zeroNodeDrift, rclamp]
    have h2 : nodeC9.gpu_memory = 0 := rfl
    rw [h1, h2]
    have h3 : |(30 : ℚ) - 0| = 30 := by
      rw [show (30 : ℚ) - 0 = 30 by norm_num]
      exact abs_of_nonneg (by norm_num)
    rw [h3]
    norm_num

/-- C9 (amended): every drifted field of a node or service record lands
inside its configured clamp range, and whenever the prior value was itself
inside that range the step is bounded by the largest magnitude of the field's
gen_range interval. -/
theorem C9_drift_bounds_amended (n : NodeMetrics) (s : ServiceMetrics)
    (dn : NodeDrift) (ds : ServiceDrift) (hdn : dn.InRange) (hds : ds.InRange) :
    ((10 ≤ (driftNode n dn).cpu_usage ∧ (driftNode n dn).cpu_usage ≤ 95) ∧
      (10 ≤ n.cpu_usage → n.cpu_usage ≤ 95 →
        |(driftNode n dn).cpu_usage - n.cpu_usage| ≤ 0.5)) ∧
    ((20 ≤ (driftNode n dn).memory_usage ∧ (driftNode n dn).memory_usage ≤ 85) ∧
      (20 ≤ n.memory_usage → n.memory_usage ≤ 85 →
        |(driftNode n dn).memory_usage - n.memory_usage| ≤ 0.3)) ∧
    ((0 ≤ (driftNode n dn).gpu_usage ∧ (driftNode n dn).gpu_usage ≤ 100) ∧
      (0 ≤ n.gpu_usage → n.gpu_usage ≤ 100 →
        |(driftNode n dn).gpu_usage - n.gpu_usage| ≤ 1)) ∧
    ((30 ≤ (driftNode n dn).gpu_memory ∧ (driftNode n dn).gpu_memory ≤ 70) ∧
      (30 ≤ n.gpu_memory → n.gpu_memory ≤ 70 →
        |(driftNode n dn).gpu_memory - n.gpu_memory| ≤ 0.2)) ∧
    ((0 ≤ (driftNode n dn).network_rx ∧ (driftNode n dn).network_rx ≤ 1000) ∧
      (0 ≤ n.network_rx → n.network_rx ≤ 1000 →
        |(driftNode n dn).network_rx - n.network_rx| ≤ 20)) ∧
    ((0 ≤ (driftNode n dn).network_tx ∧ (driftNode n dn).network_tx ≤ 800) ∧
      (0 ≤ n.network_tx → n.network_tx ≤ 800 →
        |(driftNode n dn).network_tx - n.network_tx| ≤ 15)) ∧
    ((40 ≤ (driftNode n dn).disk_usage ∧ (driftNode n dn).disk_usage ≤ 90) ∧
      (40 ≤ n.disk_usage → n.disk_usage ≤ 90 →
        |(driftNode n dn).disk_usage - n.disk_usage| ≤ 0.1)) ∧
    ((0.5 ≤ (driftService s ds).cpu_usage ∧ (driftService s ds).cpu_usage ≤ 80) ∧
      (0.5 ≤ s.cpu_usage → s.cpu_usage ≤ 80 →
        |(driftService s ds).cpu_usage - s.cpu_usage| ≤ 0.3)) ∧
    ((10 ≤ (driftService s ds).memory_usage ∧
        (driftService s ds).memory_usage ≤ 75) ∧
      (10 ≤ s.memory_usage → s.memory_usage ≤ 75 →
        |(driftService s ds).memory_usage - s.memory_usage| ≤ 0.2)) ∧
    ((0 ≤ (driftService s ds).requests_per_sec ∧
        (driftService s ds).requests_per_sec ≤ 200) ∧
      (0 ≤ s.requests_per_sec → s.requests_per_sec ≤ 200 →
        |(driftService s ds).requests_per_sec - s.requests_per_sec| ≤ 2)) ∧
    ((50 ≤ (driftService s ds).response_time ∧
        (driftService s ds).response_time ≤ 500) ∧
      (50 ≤ s.response_time → s.response_time ≤ 500 →
        |(driftService s ds).response_time - s.response_time| ≤ 10)) ∧
    ((0 ≤ (driftService s ds).error_rate ∧ (driftService s ds).error_rate ≤ 5) ∧
      (0 ≤ s.error_rate → s.error_rate ≤ 5 →
        |(driftService s ds).error_rate - s.error_rate| ≤ 0.1)) := by
  obtain ⟨⟨c1, c2⟩, ⟨m1, m2⟩, ⟨g1, g2⟩, ⟨gm1, gm2⟩, ⟨r1, r2⟩, ⟨t1, t2⟩,
    ⟨k1, k2⟩⟩ := hdn
  obtain ⟨⟨sc1, sc2⟩, ⟨sm1, sm2⟩, ⟨sp1, sp2⟩, ⟨st1, st2⟩, ⟨se1, se2⟩⟩ := hds
  refine ⟨⟨rclamp_mem _ 10 95 (by norm_num), fun hx1 hx2 =>
      le_trans (rclamp_step n.cpu_usage dn.d_cpu 10 95 hx1 hx2)
        (abs_le.mpr ⟨by linarith, by linarith⟩)⟩,
    ⟨rclamp_mem _ 20 85 (by norm_num), fun hx1 hx2 =>
      le_trans (rclamp_step n.memory_usage dn.d_mem 20 85 hx1 hx2)
        (abs_le.mpr ⟨by linarith, by linarith⟩)⟩,
    ⟨rclamp_mem _ 0 100 (by norm_num), fun hx1 hx2 =>
      le_trans (rclamp_step n.gpu_usage dn.d_gpu 0 100 hx1 hx2)
        (abs_le.mpr ⟨by linarith, by linarith⟩)⟩,
    ⟨rclamp_mem _ 30 70 (by norm_num), fun hx1 hx2 =>
      le_trans (rclamp_step n.gpu_memory dn.d_gpu_mem 30 70 hx1 hx2)
        (abs_le.mpr ⟨by linarith, by linarith⟩)⟩,
    ⟨rclamp_mem _ 0 1000 (by norm_num), fun hx1 hx2 =>
      le_trans (rclamp_step n.network_rx dn.d_rx 0 1000 hx1 hx2)
        (abs_le.mpr ⟨by linarith, by linarith⟩)⟩,
    ⟨rclamp_mem _ 0 800 (by norm_num), fun hx1 hx2 =>
      le_trans (rclamp_step n.network_tx dn.d_tx 0 800 hx1 hx2)
        (abs_le.mpr ⟨by linarith, by linarith⟩)⟩,
    ⟨rclamp_mem _ 40 90 (by norm_num), fun hx1 hx2 =>
      le_trans (rclamp_step n.disk_usage dn.d_disk 40 90 hx1 hx2)
        (abs_le.mpr ⟨by linarith, by linarith⟩)⟩,
    ⟨rclamp_mem _ 0.5 80 (by norm_num), fun hx1 hx2 =>
      le_trans (rclamp_step s.cpu_usage ds.d_cpu 0.5 80 hx1 hx2)
        (abs_le.mpr ⟨by linarith, by linarith⟩)⟩,
    ⟨rclamp_mem _ 10 75 (by norm_num), fun hx1 hx2 =>
      le_trans (rclamp_step s.memory_usage ds.d_mem 10 75 hx1 hx2)
        (abs_le.mpr ⟨by linarith, by linarith⟩)⟩,
    ⟨rclamp_mem _ 0 200 (by norm_num), fun hx1 hx2 =>
      le_trans (rclamp_step s.requests_per_sec ds.d_rps 0 200 hx1 hx2)
        (abs_le.mpr ⟨by linarith, by linarith⟩)⟩,
    ⟨rclamp_mem _ 50 500 (by norm_num), fun hx1 hx2 =>
      le_trans (rclamp_step s.response_time ds.d_rt 50 500 hx1 hx2)
        (abs_le.mpr ⟨by linarith, by linarith⟩)⟩,
    ⟨rclamp_mem _ 0 5 (by norm_num), fun hx1 hx2 =>
      le_trans (rclamp_step s.error_rate ds.d_err 0 5 hx1 hx2)
        (abs_le.mpr ⟨by linarith, by linarith⟩)⟩⟩

/-- C9 witness: a zero draw on records whose fields start mid-range lands in
range and moves each field by no more than its per-step bound. -/
theorem C9_drift_bounds_witness :
    (10 ≤ (driftNode nodeW9 zeroNodeDrift).cpu_usage ∧
      (driftNode nodeW9 zeroNodeDrift).cpu_usage ≤ 95) ∧
    |(driftNode nodeW9 zeroNodeDrift).cpu_usage - nodeW9.cpu_usage| ≤ 0.5 ∧
    (0 ≤ (driftService svcW9 zeroServiceDrift).error_rate ∧
      (driftService svcW9 zeroServiceDrift).error_rate ≤ 5) := by
  have h := C9_drift_bounds_amended nodeW9 svcW9 zeroNodeDrift zeroServiceDrift
    (by norm_num [NodeDrift.InRange, zeroNodeDrift])
    (by norm_num [ServiceDrift.InRange, zeroServiceDrift])
  exact ⟨h.1.1,
    h.1.2 (by norm_num [nodeW9]) (by norm_num [nodeW9]),
    (h.2.2.2.2.2.2.2.2.2.2.2).1⟩

end Monitorium
